import Mathlib

/-!
Shallow embedding of `src/x86-ubuntu-24.04-gapbs/x86-gapbs.py`, a gem5
driver script that parses three command-line arguments, builds a fixed
full-system configuration, synthesizes a guest boot command, and runs the
simulator once.
-/

set_option maxRecDepth 4000

namespace Gapbs

/-- Build capabilities of the gem5 binary, as tested by the `requires(...)`
call at the top of the script (`isa_required=ISA.X86`,
`coherence_protocol_required=CoherenceProtocol.MESI_TWO_LEVEL`,
`kvm_required=True`). -/
structure BuildCaps where
  x86_supported : Bool
  mesi_two_level_supported : Bool
  kvm_supported : Bool
deriving DecidableEq

/-- The `requires(...)` precondition check: it passes only when every
required capability is present in the build. -/
def requires_ok (c : BuildCaps) : Bool :=
  c.x86_supported && c.mesi_two_level_supported && c.kvm_supported

/-- `size_choices`: the script appends `str(i)` for `i in range(1, 17)` and
then `"USA-road-d.NY.gr"`. -/
def size_choices : List String :=
  ((List.range' 1 16).map (fun i => toString i)) ++ ["USA-road-d.NY.gr"]

/-- `benchmark_choices = ["cc", "bc", "tc", "pr", "bfs"]`. -/
def benchmark_choices : List String := ["cc", "bc", "tc", "pr", "bfs"]

/-- The `choices=["t", "f"]` list of the `--synthetic` argument. -/
def synthetic_choices : List String := ["t", "f"]

/-- The three required command-line arguments of the script. -/
structure Args where
  benchmark : String
  size : String
  synthetic : String
deriving DecidableEq

/-- `args = parser.parse_args()`: argparse checks each supplied value
against the `choices` list of its argument. `--benchmark` is checked
against `benchmark_choices` and `--synthetic` against `["t", "f"]`; the
`choices=size_choices` line of `--size` is commented out in the source, so
the size value is never checked. `none` models the argparse usage error
(non-zero exit). -/
def parse_args (a : Args) : Option Args :=
  if a.benchmark ∈ benchmark_choices then
    if a.synthetic ∈ synthetic_choices then
      some a
    else none
  else none

/-- The guest command string synthesized from the parsed arguments:
`"cd /home/gem5/gapbs;" + f"./{benchmark} -sf /home/gem5/{size} -n 10"`
when `synthetic == "f"`, and
`"cd /home/gem5/gapbs;" + f"./{benchmark} -g {size} -n 10"` otherwise. -/
def command (args : Args) : String :=
  if args.synthetic = "f" then
    "cd /home/gem5/gapbs;" ++
      ("./" ++ args.benchmark ++ " -sf /home/gem5/" ++ args.size ++ " -n 10")
  else
    "cd /home/gem5/gapbs;" ++
      ("./" ++ args.benchmark ++ " -g " ++ args.size ++ " -n 10")

/-- All construction parameters the script passes to the gem5 component
library: the cache hierarchy, memory, processor and board parameters, and
the `set_kernel_disk_workload` arguments. -/
structure SystemConfig where
  l1d_size : String
  l1d_assoc : Nat
  l1i_size : String
  l1i_assoc : Nat
  l2_size : String
  l2_assoc : Nat
  num_l2_banks : Nat
  memory_size : String
  cpu_type : String
  num_cores : Nat
  isa : String
  clk_freq : String
  kernel_resource : String
  kernel_resource_version : String
  disk_image_path : String
  readfile_contents : String
  kernel_args : List String
deriving DecidableEq

/-- The configuration the script builds from parsed arguments: every field
is a hard-coded constant except `readfile_contents`, which is the
synthesized guest command. -/
def systemConfig (args : Args) : SystemConfig :=
  { l1d_size := "32kB"
    l1d_assoc := 8
    l1i_size := "32kB"
    l1i_assoc := 8
    l2_size := "256kB"
    l2_assoc := 16
    num_l2_banks := 2
    memory_size := "3GB"
    cpu_type := "KVM"
    num_cores := 2
    isa := "X86"
    clk_freq := "3GHz"
    kernel_resource := "x86-linux-kernel-5.4.0-105-generic"
    kernel_resource_version := "1.0.0"
    disk_image_path :=
      "/home/bees/gem5-resources/src/x86-ubuntu-24.04-gapbs/disk-image-ubuntu-24-04/x86-ubuntu-24-04"
    readfile_contents := command args
    kernel_args :=
      ["earlyprintk=ttyS0", "console=ttyS0", "root=/dev/sda2", "no_systemd=false"] }

/-- The same configuration with the guest command blanked out, used to
compare the argument-independent part of two configurations. -/
def erase_guest_command (c : SystemConfig) : SystemConfig :=
  { c with readfile_contents := "" }

/-- The primitive actions performed by the exit-event handler generators
defined in the script. -/
inductive HandlerAction where
  | printMsg (s : String)
  | statsResetCall
  | statsDumpCall
  | processorSwitch
  | yieldVal (b : Bool)
deriving DecidableEq

/-- The body of `handle_workbegin()`: print twice, reset statistics,
switch the processor, then yield `False`. -/
def handle_workbegin : List HandlerAction :=
  [HandlerAction.printMsg "Done booting Linux",
   HandlerAction.printMsg "Resetting stats at the start of ROI!",
   HandlerAction.statsResetCall,
   HandlerAction.processorSwitch,
   HandlerAction.yieldVal false]

/-- The body of `handle_workend()`: print, dump statistics, then yield
`True`. -/
def handle_workend : List HandlerAction :=
  [HandlerAction.printMsg "Dump stats at the end of the ROI!",
   HandlerAction.statsDumpCall,
   HandlerAction.yieldVal true]

/-- The `on_exit_event` mapping passed to the `Simulator` constructor. The
registration of `handle_workbegin`/`handle_workend` is commented out in
the source, so no exit-event handler is registered. -/
def registered_exit_handlers : List (String × List HandlerAction) := []

/-- The observable events of one run of the script, in program order. -/
inductive Event where
  | requiresFailure
  | usageError
  | construct (component : String)
  | setKernelDiskWorkload
  | statsReset
  | simulatorRun
  | roiTicksAccess (i : Nat)
deriving DecidableEq

/-- The top-level control flow of the script as an event trace: the
`requires(...)` check runs first and aborts on failure; then
`parse_args()` exits with a usage error on an invalid value; otherwise the
cache hierarchy, memory, processor, board and simulator are constructed,
`m5.stats.reset()` is called once, `simulator.run()` is called, and the
final statistics line indexes `simulator.get_roi_ticks()[0]`. -/
def mainTrace (caps : BuildCaps) (a : Args) : List Event :=
  if requires_ok caps then
    match parse_args a with
    | none => [Event.usageError]
    | some _ =>
      [Event.construct "cache_hierarchy",
       Event.construct "memory",
       Event.construct "processor",
       Event.construct "board",
       Event.setKernelDiskWorkload,
       Event.construct "simulator",
       Event.statsReset,
       Event.simulatorRun,
       Event.roiTicksAccess 0]
  else [Event.requiresFailure]

/-- `simulator.get_roi_ticks()[0]` is Python list indexing, which raises on
an out-of-range index; modelled as an `Option`-returning access. -/
def get_roi_ticks_at (roi_ticks : List Nat) (i : Nat) : Option Nat :=
  roi_ticks.get? i

/-- Helper: a string of the shape `s ++ (t ++ " -n 10")` ends, at the
character level, with the characters of `"-n 10"`. -/
lemma data_ends_with_n10 (s t : String) :
    ("-n 10").data <:+ (s ++ (t ++ " -n 10")).data := by
  refine ⟨(s ++ (t ++ " ")).data, ?_⟩
  have hsplit : (" ").data ++ ("-n 10").data = (" -n 10").data := rfl
  simp only [String.data_append, List.append_assoc, hsplit]

/-- C1: for `--synthetic f` and `--size foo.gr` and any accepted benchmark
name, the synthesized guest command contains the real-graph-file flag with
the path `/home/gem5/foo.gr` and the trial count `-n 10`. -/
theorem C1_real_graph_command (b : String) (hb : b ∈ benchmark_choices) :
    ("-sf /home/gem5/foo.gr").data <:+: (command ⟨b, "foo.gr", "f"⟩).data ∧
    ("-n 10").data <:+: (command ⟨b, "foo.gr", "f"⟩).data := by
  simp only [benchmark_choices, List.mem_cons, List.not_mem_nil, or_false] at hb
  rcases hb with rfl | rfl | rfl | rfl | rfl <;> exact ⟨by decide, by decide⟩

/-- Witness for C1 at the concrete benchmark `cc`. -/
theorem C1_real_graph_command_witness :
    "cc" ∈ benchmark_choices ∧
    (("-sf /home/gem5/foo.gr").data <:+: (command ⟨"cc", "foo.gr", "f"⟩).data ∧
     ("-n 10").data <:+: (command ⟨"cc", "foo.gr", "f"⟩).data) :=
  ⟨by decide, C1_real_graph_command "cc" (by decide)⟩

/-- C2: for `--synthetic t` and `--size 8` and any accepted benchmark name,
the synthesized guest command contains the generated-graph flag with scale
factor `8` and the trial count `-n 10`. -/
theorem C2_synthetic_graph_command (b : String) (hb : b ∈ benchmark_choices) :
    ("-g 8").data <:+: (command ⟨b, "8", "t"⟩).data ∧
    ("-n 10").data <:+: (command ⟨b, "8", "t"⟩).data := by
  simp only [benchmark_choices, List.mem_cons, List.not_mem_nil, or_false] at hb
  rcases hb with rfl | rfl | rfl | rfl | rfl <;> exact ⟨by decide, by decide⟩

/-- Witness for C2 at the concrete benchmark `bfs`. -/
theorem C2_synthetic_graph_command_witness :
    "bfs" ∈ benchmark_choices ∧
    (("-g 8").data <:+: (command ⟨"bfs", "8", "t"⟩).data ∧
     ("-n 10").data <:+: (command ⟨"bfs", "8", "t"⟩).data) :=
  ⟨by decide, C2_synthetic_graph_command "bfs" (by decide)⟩

/-- C3: for every accepted argument combination, the synthesized guest
command ends with the fixed repetition-count suffix `-n 10`; both branches
of `command` append it, independently of the argument values. -/
theorem C3_trailing_trial_count (a : Args) (h : parse_args a = some a) :
    ("-n 10").data <:+ (command a).data := by
  unfold command
  by_cases hs : a.synthetic = "f"
  · rw [if_pos hs]; exact data_ends_with_n10 _ _
  · rw [if_neg hs]; exact data_ends_with_n10 _ _

/-- Witness for C3 at the concrete invocation `--benchmark pr --size 4
--synthetic t`. -/
theorem C3_trailing_trial_count_witness :
    parse_args ⟨"pr", "4", "t"⟩ = some ⟨"pr", "4", "t"⟩ ∧
    ("-n 10").data <:+ (command ⟨"pr", "4", "t"⟩).data :=
  ⟨by decide, C3_trailing_trial_count ⟨"pr", "4", "t"⟩ (by decide)⟩

/-- C4: in the active configuration, for every run that passes the
`requires` check and argument parsing, `m5.stats.reset()` is executed
exactly once and before `simulator.run()`; the workbegin/workend handlers
would reset/dump statistics but no exit-event handler is registered. -/
theorem C4_stats_reset_once (caps : BuildCaps) (a : Args)
    (hc : requires_ok caps = true) (ha : parse_args a = some a) :
    (mainTrace caps a).count Event.statsReset = 1 ∧
    (mainTrace caps a).indexOf Event.statsReset <
      (mainTrace caps a).indexOf Event.simulatorRun ∧
    HandlerAction.statsResetCall ∈ handle_workbegin ∧
    HandlerAction.statsDumpCall ∈ handle_workend ∧
    registered_exit_handlers = [] := by
  have ht : mainTrace caps a =
      [Event.construct "cache_hierarchy",
       Event.construct "memory",
       Event.construct "processor",
       Event.construct "board",
       Event.setKernelDiskWorkload,
       Event.construct "simulator",
       Event.statsReset,
       Event.simulatorRun,
       Event.roiTicksAccess 0] := by
    simp [mainTrace, hc, ha]
  rw [ht]
  refine ⟨by decide, by decide, by decide, by decide, rfl⟩

/-- Witness for C4 with all build capabilities present and the invocation
`--benchmark cc --size 8 --synthetic t`. -/
theorem C4_stats_reset_once_witness :
    requires_ok ⟨true, true, true⟩ = true ∧
    parse_args ⟨"cc", "8", "t"⟩ = some ⟨"cc", "8", "t"⟩ ∧
    ((mainTrace ⟨true, true, true⟩ ⟨"cc", "8", "t"⟩).count Event.statsReset = 1 ∧
     (mainTrace ⟨true, true, true⟩ ⟨"cc", "8", "t"⟩).indexOf Event.statsReset <
       (mainTrace ⟨true, true, true⟩ ⟨"cc", "8", "t"⟩).indexOf Event.simulatorRun ∧
     HandlerAction.statsResetCall ∈ handle_workbegin ∧
     HandlerAction.statsDumpCall ∈ handle_workend ∧
     registered_exit_handlers = []) :=
  ⟨by decide, by decide,
   C4_stats_reset_once ⟨true, true, true⟩ ⟨"cc", "8", "t"⟩ (by decide) (by decide)⟩

/-- C5: for every `--benchmark` value outside the enumerated set, the run
ends in a usage error and no simulator component is constructed. -/
theorem C5_bad_benchmark_rejected (caps : BuildCaps) (a : Args)
    (hc : requires_ok caps = true) (hb : a.benchmark ∉ benchmark_choices) :
    mainTrace caps a = [Event.usageError] ∧
    ∀ c, Event.construct c ∉ mainTrace caps a := by
  have hp : parse_args a = none := by simp [parse_args, hb]
  have ht : mainTrace caps a = [Event.usageError] := by simp [mainTrace, hc, hp]
  refine ⟨ht, fun c => ?_⟩
  rw [ht]
  simp

/-- Witness for C5 at the rejected benchmark name `sssp`. -/
theorem C5_bad_benchmark_rejected_witness :
    requires_ok ⟨true, true, true⟩ = true ∧
    "sssp" ∉ benchmark_choices ∧
    (mainTrace ⟨true, true, true⟩ ⟨"sssp", "8", "t"⟩ = [Event.usageError] ∧
     ∀ c, Event.construct c ∉ mainTrace ⟨true, true, true⟩ ⟨"sssp", "8", "t"⟩) :=
  ⟨by decide, by decide,
   C5_bad_benchmark_rejected ⟨true, true, true⟩ ⟨"sssp", "8", "t"⟩ (by decide) (by decide)⟩

/-- C6: for every `--synthetic` value other than the literal tokens `t` and
`f`, the run ends in a usage error and no simulator component is
constructed. -/
theorem C6_bad_synthetic_rejected (caps : BuildCaps) (a : Args)
    (hc : requires_ok caps = true) (hs : a.synthetic ∉ synthetic_choices) :
    mainTrace caps a = [Event.usageError] ∧
    ∀ c, Event.construct c ∉ mainTrace caps a := by
  have hp : parse_args a = none := by
    by_cases hb : a.benchmark ∈ benchmark_choices <;> simp [parse_args, hb, hs]
  have ht : mainTrace caps a = [Event.usageError] := by simp [mainTrace, hc, hp]
  refine ⟨ht, fun c => ?_⟩
  rw [ht]
  simp

/-- Witness for C6 at the rejected synthetic-flag value `yes`. -/
theorem C6_bad_synthetic_rejected_witness :
    requires_ok ⟨true, true, true⟩ = true ∧
    "yes" ∉ synthetic_choices ∧
    (mainTrace ⟨true, true, true⟩ ⟨"cc", "8", "yes"⟩ = [Event.usageError] ∧
     ∀ c, Event.construct c ∉ mainTrace ⟨true, true, true⟩ ⟨"cc", "8", "yes"⟩) :=
  ⟨by decide, by decide,
   C6_bad_synthetic_rejected ⟨true, true, true⟩ ⟨"cc", "8", "yes"⟩ (by decide) (by decide)⟩

/-- C7: the `--size` value is never checked: any size string is accepted
whenever the other two arguments are valid, even though the script builds
the `size_choices` list `"1"`..`"16"` plus `"USA-road-d.NY.gr"` (its
`choices=` line being commented out). -/
theorem C7_size_unchecked (a : Args)
    (hb : a.benchmark ∈ benchmark_choices) (hs : a.synthetic ∈ synthetic_choices) :
    parse_args a = some a ∧
    size_choices = ["1", "2", "3", "4", "5", "6", "7", "8", "9", "10", "11",
      "12", "13", "14", "15", "16", "USA-road-d.NY.gr"] :=
  ⟨by simp [parse_args, hb, hs], by decide⟩

/-- Witness for C7 at a size value far outside `size_choices`. -/
theorem C7_size_unchecked_witness :
    "cc" ∈ benchmark_choices ∧ "t" ∈ synthetic_choices ∧
    (parse_args ⟨"cc", "not-a-size-at-all", "t"⟩ =
       some ⟨"cc", "not-a-size-at-all", "t"⟩ ∧
     size_choices = ["1", "2", "3", "4", "5", "6", "7", "8", "9", "10", "11",
       "12", "13", "14", "15", "16", "USA-road-d.NY.gr"]) :=
  ⟨by decide, by decide,
   C7_size_unchecked ⟨"cc", "not-a-size-at-all", "t"⟩ (by decide) (by decide)⟩

/-- C8: when X86 or MESI-two-level support is missing from the build, the
run aborts at the `requires` check regardless of the supplied arguments:
no component is constructed and argument parsing is never reached (no
usage error can occur). -/
theorem C8_requires_before_parsing (caps : BuildCaps) (a : Args)
    (h : caps.x86_supported = false ∨ caps.mesi_two_level_supported = false) :
    mainTrace caps a = [Event.requiresFailure] ∧
    (∀ c, Event.construct c ∉ mainTrace caps a) ∧
    Event.usageError ∉ mainTrace caps a := by
  have hr : requires_ok caps = false := by
    rcases h with h | h <;> simp [requires_ok, h]
  have ht : mainTrace caps a = [Event.requiresFailure] := by simp [mainTrace, hr]
  rw [ht]
  refine ⟨rfl, fun c => ?_, ?_⟩ <;> simp

/-- Witness for C8: X86 support absent, arguments entirely invalid. -/
theorem C8_requires_before_parsing_witness :
    ((⟨false, true, true⟩ : BuildCaps).x86_supported = false ∨
     (⟨false, true, true⟩ : BuildCaps).mesi_two_level_supported = false) ∧
    (mainTrace ⟨false, true, true⟩ ⟨"nope", "x", "q"⟩ = [Event.requiresFailure] ∧
     (∀ c, Event.construct c ∉ mainTrace ⟨false, true, true⟩ ⟨"nope", "x", "q"⟩) ∧
     Event.usageError ∉ mainTrace ⟨false, true, true⟩ ⟨"nope", "x", "q"⟩) :=
  ⟨Or.inl rfl,
   C8_requires_before_parsing ⟨false, true, true⟩ ⟨"nope", "x", "q"⟩ (Or.inl rfl)⟩

/-- C9: the command-line arguments influence only the guest command: for
any two accepted argument combinations the configurations agree on every
field once `readfile_contents` is blanked out, and `readfile_contents` is
exactly the synthesized command. -/
theorem C9_args_influence_only_command (a1 a2 : Args)
    (h1 : parse_args a1 = some a1) (h2 : parse_args a2 = some a2) :
    erase_guest_command (systemConfig a1) = erase_guest_command (systemConfig a2) ∧
    (systemConfig a1).readfile_contents = command a1 :=
  ⟨rfl, rfl⟩

/-- Witness for C9 at two distinct accepted invocations. -/
theorem C9_args_influence_only_command_witness :
    parse_args ⟨"cc", "8", "t"⟩ = some ⟨"cc", "8", "t"⟩ ∧
    parse_args ⟨"bfs", "foo.gr", "f"⟩ = some ⟨"bfs", "foo.gr", "f"⟩ ∧
    (erase_guest_command (systemConfig ⟨"cc", "8", "t"⟩) =
       erase_guest_command (systemConfig ⟨"bfs", "foo.gr", "f"⟩) ∧
     (systemConfig ⟨"cc", "8", "t"⟩).readfile_contents = command ⟨"cc", "8", "t"⟩) :=
  ⟨by decide, by decide,
   C9_args_influence_only_command ⟨"cc", "8", "t"⟩ ⟨"bfs", "foo.gr", "f"⟩
     (by decide) (by decide)⟩

/-- C10: the final report indexes element 0 of the ROI-tick list; that
access is well-defined exactly when the list is non-empty, no exit-event
handler is registered that could populate it, and every successful run
reaches the access unconditionally. -/
theorem C10_roi_ticks_precondition (caps : BuildCaps) (a : Args)
    (hc : requires_ok caps = true) (ha : parse_args a = some a) :
    (∀ ticks : List Nat, (get_roi_ticks_at ticks 0).isSome = true ↔ ticks ≠ []) ∧
    registered_exit_handlers = [] ∧
    Event.roiTicksAccess 0 ∈ mainTrace caps a := by
  refine ⟨fun ticks => ?_, rfl, ?_⟩
  · cases ticks <;> simp [get_roi_ticks_at]
  · simp [mainTrace, hc, ha]

/-- Witness for C10 at a concrete successful run. -/
theorem C10_roi_ticks_precondition_witness :
    requires_ok ⟨true, true, true⟩ = true ∧
    parse_args ⟨"tc", "2", "t"⟩ = some ⟨"tc", "2", "t"⟩ ∧
    ((∀ ticks : List Nat, (get_roi_ticks_at ticks 0).isSome = true ↔ ticks ≠ []) ∧
     registered_exit_handlers = [] ∧
     Event.roiTicksAccess 0 ∈ mainTrace ⟨true, true, true⟩ ⟨"tc", "2", "t"⟩) :=
  ⟨by decide, by decide,
   C10_roi_ticks_precondition ⟨true, true, true⟩ ⟨"tc", "2", "t"⟩ (by decide) (by decide)⟩

end Gapbs
